import Mathlib

/-!
Verification of the Azure TTS CLI (`azure_tts_cli.py`) against its
natural-language specification.  The script is shallowly embedded below:
pure helpers become Lean functions, the stateful orchestration (`main`)
becomes a function from environment, parsed arguments, the input file's
lines and a provider oracle to an exit code plus an ordered trace of
observable events (prints and synthesis calls).  The remote speech
provider is opaque: each call's result is supplied by an oracle
`Nat → ProviderResult` indexed by the 1-based call number.
-/

/-- The `POPULAR_VOICES` dictionary of `AzureTTS` (alias key → full voice id),
in source order. -/
def POPULAR_VOICES : List (String × String) :=
  [("ava", "en-US-AvaNeural"),
   ("andrew", "en-US-AndrewMultilingualNeural"),
   ("emma", "en-US-EmmaMultilingualNeural"),
   ("brian", "en-US-BrianMultilingualNeural"),
   ("sarah", "en-US-SaraNeural"),
   ("christopher", "en-US-ChristopherNeural")]

/-- Python dict lookup `POPULAR_VOICES[k]` / membership `k in POPULAR_VOICES`. -/
def lookupVoice (k : String) : Option String :=
  (POPULAR_VOICES.find? (fun p => p.1 == k)).map Prod.snd

/-- Python truthiness of an optional string (absent or empty ⟶ falsy),
as used by `if not self.speech_key`, `if args.text:` etc. -/
def truthyS : Option String → Bool
  | none => false
  | some s => !(s == "")

/-- Python `str.lower()` on one character (ASCII; the alias keys and voice
identifiers are ASCII). -/
def lowerChar (c : Char) : Char :=
  if 65 ≤ c.toNat ∧ c.toNat ≤ 90 then Char.ofNat (c.toNat + 32) else c

/-- Python `s.lower()`. -/
def pyLower (s : String) : String := String.mk (s.data.map lowerChar)

/-- The voice-name resolution of `AzureTTS.__init__` (lines 49-55):
`if voice_name and voice_name.lower() in POPULAR_VOICES: alias;
elif voice_name: verbatim; else: os.environ.get('VOICE_NAME', 'en-US-AvaNeural')`. -/
def resolveVoice (voiceName : Option String) (envVoice : Option String) : String :=
  match voiceName with
  | some v =>
    if v == "" then envVoice.getD "en-US-AvaNeural"
    else
      match lookupVoice (pyLower v) with
      | some full => full
      | none => v
  | none => envVoice.getD "en-US-AvaNeural"

/-- The error message raised by `AzureTTS.__init__` when `SPEECH_KEY` or
`SPEECH_REGION` is missing/empty (two adjacent Python string literals). -/
def CONFIG_ERR : String :=
  "SPEECH_KEY and SPEECH_REGION environment variables are required. Please set them in your .env file or environment."

/-- Process environment as read by the script: `SPEECH_KEY`, `SPEECH_REGION`,
`VOICE_NAME`. -/
structure Env where
  speechKey : Option String
  speechRegion : Option String
  voiceNameEnv : Option String
deriving DecidableEq

/-- Model of `AzureTTS.__init__` (lines 38-55): fails when the key or region is
absent/empty, otherwise resolves the voice name. -/
def azureTTSInit (env : Env) (voiceName : Option String) : Except String String :=
  if !(truthyS env.speechKey) || !(truthyS env.speechRegion) then .error CONFIG_ERR
  else .ok (resolveVoice voiceName env.voiceNameEnv)

/-- Outcome of one provider `speak_text_async(...).get()` interaction, as
observed by the script: a completed result, a canceled result (with the
cancellation reason rendered as a string and the `error_details` string,
empty when absent), any other result reason, or an exception raised
during the call. -/
inductive ProviderResult
  | completed
  | canceled (reason : String) (details : String)
  | other
  | raised (msg : String)
deriving DecidableEq

/-- Model of `AzureTTS.synthesize_to_file` (lines 65-88).  `Except.error m` models the
`AzureTTSError(m)` that escapes the method; `.ok b` models returning `b`.
Note the `raise AzureTTSError(error_msg)` in the canceled branch sits inside
the `try`, so the generic `except Exception` re-wraps it with the
`"Synthesis failed: "` prefix. -/
def synthesizeToFile (r : ProviderResult) : Except String Bool :=
  match r with
  | .completed => .ok true
  | .canceled reason details =>
    let em := "Speech synthesis canceled: " ++ reason
    let em := if details == "" then em else em ++ "\nError details: " ++ details
    .error ("Synthesis failed: " ++ em)
  | .other => .ok false
  | .raised m => .error ("Synthesis failed: " ++ m)

/-- Model of `AzureTTS.synthesize_to_speaker` (lines 90-113); identical control flow to
`synthesize_to_file`, with the speaker audio sink. -/
def synthesizeToSpeaker (r : ProviderResult) : Except String Bool :=
  match r with
  | .completed => .ok true
  | .canceled reason details =>
    let em := "Speech synthesis canceled: " ++ reason
    let em := if details == "" then em else em ++ "\nError details: " ++ details
    .error ("Synthesis failed: " ++ em)
  | .other => .ok false
  | .raised m => .error ("Synthesis failed: " ++ m)

/-- Spec-side classifier: the call reported provider Success (returned `True`). -/
def isSuccess (r : Except String Bool) : Bool :=
  match r with
  | .ok true => true
  | _ => false

/-- Spec-side classifier: the call produced a structured Failure (raised
`AzureTTSError` with a message). -/
def isFailureRes (r : Except String Bool) : Bool :=
  match r with
  | .error _ => true
  | _ => false

/-- Spec-side classifier used in loop lemmas: the call raised. -/
def isErr (r : Except String Bool) : Bool :=
  match r with
  | .error _ => true
  | _ => false

/-- Characters stripped by Python `str.strip()` (ASCII whitespace; the
source file's inputs are modeled over ASCII). -/
def isPySpace (c : Char) : Bool :=
  c == ' ' || c == '\t' || c == '\n' || c == '\r' || c == '\x0b' || c == '\x0c'

/-- Python `line.strip()`. -/
def pyStrip (s : String) : String :=
  String.mk (((s.data.dropWhile isPySpace).reverse.dropWhile isPySpace).reverse)

/-- Model of `read_text_file` (lines 116-125) on a file whose raw lines are `raw`:
`[line.strip() for line in f.readlines() if line.strip()]`. -/
def read_text_file_lines (raw : List String) : List String :=
  (raw.filter (fun line => !(pyStrip line == ""))).map pyStrip

/-- Python `enumerate(lines, 1)` as used at lines 265 and 272. -/
def enumerate1 {α : Type} (xs : List α) : List (Nat × α) :=
  (List.range' 1 xs.length).zip xs

/-- Python `f"{n:03d}"`: decimal digits left-padded with zeros to a minimum
width of 3. -/
def pad3 (n : Nat) : String :=
  let s := toString n
  if s.length < 3 then String.mk (List.replicate (3 - s.length) '0') ++ s else s

/-- The path returned by `create_output_filename` (lines 128-132):
`output_dir / f"{base_name}_{line_number:03d}.wav"`, with the `pathlib`
join modeled textually. -/
def create_output_filename (base_name : String) (line_number : Nat) (output_dir : String) : String :=
  output_dir ++ "/" ++ base_name ++ "_" ++ pad3 line_number ++ ".wav"

/-- Split a character list on `'/'` (Python `"a/b".split('/')` shape). -/
def splitOnSlash : List Char → List (List Char)
  | [] => [[]]
  | c :: rest =>
    match splitOnSlash rest with
    | [] => [[c]]
    | h :: t => if c == '/' then [] :: h :: t else (c :: h) :: t

/-- Rejoin path segments with `'/'`. -/
def joinSlash : List (List Char) → List Char
  | [] => []
  | [x] => x
  | x :: y :: t => x ++ '/' :: joinSlash (y :: t)

/-- Parent path of a textual path, for the filesystem model:
`"a/b" ↦ "a"`, a single segment's parent is `""` (the working directory). -/
def parentOf (d : String) : String :=
  String.mk (joinSlash ((splitOnSlash d.data).dropLast))

/-- Model of `Path(output_dir).mkdir(exist_ok=True)` over a filesystem modeled as the
list of existing directory paths: succeeds silently when the directory
exists, creates it when its parent exists, and raises `FileNotFoundError`
when the parent is missing (`parents=False` — the pathlib default used by
the source). -/
def mkdirExistOk (fs : List String) (d : String) : Except String (List String) :=
  if d ∈ fs then .ok fs
  else if parentOf d ∈ fs then .ok (d :: fs)
  else .error ("FileNotFoundError: " ++ parentOf d)

/-- Model of `create_output_filename` including its directory side effect (lines
130-132): the `mkdir(exist_ok=True)` call runs before the path is returned. -/
def create_output_filename_fs (base_name : String) (line_number : Nat) (output_dir : String)
    (fs : List String) : Except String (List String × String) :=
  match mkdirExistOk fs output_dir with
  | .error e => .error e
  | .ok fs2 => .ok (fs2, output_dir ++ "/" ++ base_name ++ "_" ++ pad3 line_number ++ ".wav")

/-- Substring test `pat ∈ s` over char lists (Python `'en-US-' in args.voice`). -/
def hasSub (pat : List Char) : List Char → Bool
  | [] => pat.isEmpty
  | c :: rest => pat.isPrefixOf (c :: rest) || hasSub pat rest

/-- Python `pat in s` on strings. -/
def strIn (pat s : String) : Bool := hasSub pat.data s.data

/-- One pass of Python `str.replace`: scan left to right, replacing each
non-overlapping occurrence of `pat` and resuming after it.  The fuel
argument (instantiated with the list's length) only drives structural
recursion; one fuel unit is spent per consumed character. -/
def replaceFuel (pat rep : List Char) : Nat → List Char → List Char
  | 0, l => l
  | _ + 1, [] => []
  | fuel + 1, c :: rest =>
    if pat.isPrefixOf (c :: rest) then
      rep ++ replaceFuel pat rep fuel (List.drop (pat.length - 1) rest)
    else c :: replaceFuel pat rep fuel rest

/-- Python `s.replace(pat, rep)` for non-empty `pat` (all the patterns the
source replaces are non-empty literals). -/
def pyReplace (s pat rep : String) : String :=
  if pat.data.isEmpty then s
  else String.mk (replaceFuel pat.data rep.data s.data.length s.data)

/-- The prefix auto-derivation block of `main` (lines 221-234), acting on
`args.prefix` (default token `"tts"`) and the CLI `args.voice` value. -/
def derivePfx (p voice : String) : String :=
  if p == "tts" then
    let shortcut := pyLower voice
    if (lookupVoice shortcut).isSome then shortcut
    else if strIn "en-US-" voice then
      pyLower (pyReplace (pyReplace (pyReplace voice "en-US-" "") "Neural" "") "Multilingual" "")
    else "tts"
  else p

/-- Parsed CLI arguments.  `text`/`file` are `some` exactly when `-t`/`-f`
was supplied (argparse tracks presence); `listVoices`, `play`, `verbose` are
the `store_true` flags; `voice`, `outputDir`, `pfx` carry the argparse
defaults `"ava"`, `"./output"`, `"tts"` when not overridden. -/
structure Args where
  text : Option String
  file : Option String
  listVoices : Bool
  voice : String
  output : Option String
  outputDir : String
  pfx : String
  play : Bool
  verbose : Bool
deriving DecidableEq

def b2n (b : Bool) : Nat := if b then 1 else 0

/-- Validation performed by the argparse required mutually-exclusive group
(lines 157-170): exactly one of `-t`, `-f`, `--list-voices` supplied. -/
def argsValid (a : Args) : Bool :=
  (b2n a.text.isSome + b2n a.file.isSome + b2n a.listVoices) == 1

/-- Observable event trace of one run: each constructor corresponds to one
print statement or synthesis-method invocation site of `main`. -/
inductive Event
  | usageError
  | listedVoices
  | vInit (voice : String)
  | vUsing (voice : String)
  | vPlayingText (t : String)
  | vSynthToFile (f : String)
  | vPlayingLine (i : Nat) (snippet : String)
  | vSynthLine (i : Nat) (path : String)
  | callSynthFile (text : String) (path : String)
  | callSynthSpeaker (text : String)
  | playedOk
  | savedOk (path : String)
  | playedLine (i : Nat)
  | savedLine (i : Nat) (path : String)
  | allSaved (n : Nat) (dir : String)
  | noText
  | processing (n : Nat) (f : String)
  | errorMsg (m : String)
deriving DecidableEq

/-- Python `line[:50]` (verbose snippet). -/
def takeStr (n : Nat) (s : String) : String := String.mk (s.data.take n)

/-- The save-each-line loop of `main` (lines 272-279), 1-based index `i`;
returns the events it emitted and `some m` when `synthesize_to_file`
raised `AzureTTSError(m)` (aborting the loop). -/
def fileLoop (p dir : String) (vb : Bool) (provider : Nat → ProviderResult) :
    List String → Nat → List Event × Option String
  | [], _ => ([], none)
  | line :: rest, i =>
    let path := create_output_filename p i dir
    let vevs : List Event := if vb then [.vSynthLine i path] else []
    match synthesizeToFile (provider i) with
    | .error m => (vevs ++ [.callSynthFile line path], some m)
    | .ok _ =>
      let r := fileLoop p dir vb provider rest (i + 1)
      (vevs ++ [.callSynthFile line path, .savedLine i path] ++ r.1, r.2)

/-- The play-each-line loop of `main` (lines 265-269). -/
def speakerLoop (vb : Bool) (provider : Nat → ProviderResult) :
    List String → Nat → List Event × Option String
  | [], _ => ([], none)
  | line :: rest, i =>
    let vevs : List Event := if vb then [.vPlayingLine i (takeStr 50 line)] else []
    match synthesizeToSpeaker (provider i) with
    | .error m => (vevs ++ [.callSynthSpeaker line], some m)
    | .ok _ =>
      let r := speakerLoop vb provider rest (i + 1)
      (vevs ++ [.callSynthSpeaker line, .playedLine i] ++ r.1, r.2)

/-- Model of `main` (lines 145-293) as a function of the environment, the parsed
arguments, the input file's raw lines (`none` = the file does not exist;
only consulted in file mode) and the provider oracle.  Returns the exit
code and the ordered event trace.  Argparse group validation rejects with
exit code 2; `KeyboardInterrupt` and non-`AzureTTSError` exceptions have no
triggering sites in this model. -/
def run (env : Env) (a : Args) (fileLines : Option (List String))
    (provider : Nat → ProviderResult) : Nat × List Event :=
  if argsValid a = false then (2, [.usageError])
  else if a.listVoices then (0, [.listedVoices])
  else
    let evs0 : List Event := if a.verbose then [.vInit a.voice] else []
    match azureTTSInit env (some a.voice) with
    | .error m => (1, evs0 ++ [.errorMsg m])
    | .ok resolved =>
      let p := derivePfx a.pfx a.voice
      let evs1 := evs0 ++ (if a.verbose then [.vUsing resolved] else [])
      if truthyS a.text then
        let t := a.text.getD ""
        if a.play then
          let evs2 := evs1 ++ (if a.verbose then [.vPlayingText t] else [])
          match synthesizeToSpeaker (provider 1) with
          | .error m => (1, evs2 ++ [.callSynthSpeaker t, .errorMsg m])
          | .ok _ => (0, evs2 ++ [.callSynthSpeaker t, .playedOk])
        else
          let out := if truthyS a.output then a.output.getD "" else "output.wav"
          let evs2 := evs1 ++ (if a.verbose then [.vSynthToFile out] else [])
          match synthesizeToFile (provider 1) with
          | .error m => (1, evs2 ++ [.callSynthFile t out, .errorMsg m])
          | .ok _ => (0, evs2 ++ [.callSynthFile t out, .savedOk out])
      else if truthyS a.file then
        let f := a.file.getD ""
        match fileLines with
        | none => (1, evs1 ++ [.errorMsg ("Text file not found: " ++ f)])
        | some raw =>
          let lines := read_text_file_lines raw
          if lines.isEmpty then (1, evs1 ++ [.noText])
          else
            let evs2 := evs1 ++ [.processing lines.length f]
            if a.play then
              match speakerLoop a.verbose provider lines 1 with
              | (evs, some m) => (1, evs2 ++ evs ++ [.errorMsg m])
              | (evs, none) => (0, evs2 ++ evs)
            else
              match fileLoop p a.outputDir a.verbose provider lines 1 with
              | (evs, some m) => (1, evs2 ++ evs ++ [.errorMsg m])
              | (evs, none) => (0, evs2 ++ evs ++ [.allSaved lines.length a.outputDir])
      else (0, evs1)

/-- Count of synthesis-method invocations (network calls) in a trace. -/
def isCall : Event → Bool
  | .callSynthFile _ _ => true
  | .callSynthSpeaker _ => true
  | _ => false

def synthCallCount (evs : List Event) : Nat := (evs.filter isCall).length

/-- The texts submitted for synthesis, in call order. -/
def synthTexts (evs : List Event) : List String :=
  evs.filterMap (fun e =>
    match e with
    | .callSynthFile t _ => some t
    | .callSynthSpeaker t => some t
    | _ => none)

/-- The 1-based indices reported by the per-line success prints. -/
def savedIdx (evs : List Event) : List Nat :=
  evs.filterMap (fun e =>
    match e with
    | .savedLine i _ => some i
    | _ => none)

/-- File-mode argument vector: `-f f -v voice --prefix pfx -d dir`, no play,
no verbose. -/
def mkFileArgs (f voice pfxArg dir : String) : Args :=
  { text := none, file := some f, listVoices := false, voice := voice,
    output := none, outputDir := dir, pfx := pfxArg, play := false, verbose := false }

lemma strData_append (a b : String) : (a ++ b).data = a.data ++ b.data := rfl

lemma strLength_append (a b : String) : (a ++ b).length = a.length + b.length := by
  show (a ++ b).data.length = a.data.length + b.data.length
  rw [strData_append, List.length_append]

lemma strLength_mk (l : List Char) : (String.mk l).length = l.length := rfl

/-- C1: voice resolution order of `AzureTTS.__init__`: an alias key
(case-insensitively) resolves to the aliased full identifier; any other
non-empty caller string is used verbatim; an absent caller voice falls back
to the `VOICE_NAME` environment default, and with that also absent, to the
hardcoded `en-US-AvaNeural`. -/
theorem voice_resolution_order :
    (∀ k full, (k, full) ∈ POPULAR_VOICES → ∀ e, resolveVoice (some k) e = full) ∧
    (∀ v full, v ≠ "" → lookupVoice (pyLower v) = some full →
      ∀ e, resolveVoice (some v) e = full) ∧
    (∀ v, v ≠ "" → lookupVoice (pyLower v) = none → ∀ e, resolveVoice (some v) e = v) ∧
    (∀ d, resolveVoice none (some d) = d) ∧
    resolveVoice none none = "en-US-AvaNeural" := by
  refine ⟨?_, ?_, ?_, ?_, rfl⟩
  · intro k full h e
    fin_cases h <;> rfl
  · intro v full hv hl e
    simp only [resolveVoice]
    rw [if_neg (by simp [hv]), hl]
  · intro v hv hl e
    simp only [resolveVoice]
    rw [if_neg (by simp [hv]), hl]
  · intro d
    rfl

theorem voice_resolution_order_witness :
    resolveVoice (some "ava") none = "en-US-AvaNeural" ∧
    resolveVoice (some "EMMA") (some "x") = "en-US-EmmaMultilingualNeural" ∧
    resolveVoice (some "en-US-GuyNeural") (some "x") = "en-US-GuyNeural" ∧
    resolveVoice none (some "d") = "d" :=
  ⟨voice_resolution_order.1 "ava" "en-US-AvaNeural" (by decide) none,
   voice_resolution_order.2.1 "EMMA" "en-US-EmmaMultilingualNeural" (by decide) (by decide)
     (some "x"),
   voice_resolution_order.2.2.1 "en-US-GuyNeural" (by decide) (by decide) (some "x"),
   voice_resolution_order.2.2.2.1 "d"⟩

/-- C3: the Output Namer deterministically produces
`{dir}/{base}_{index:03d}.wav`; the index is zero-padded to a minimum width
of 3 (the full decimal representation always survives as a suffix, and
indices whose decimal form already has ≥ 3 digits are not truncated),
with the two concrete examples of the spec. -/
theorem output_namer_path (base : String) (i : Nat) (dir : String) :
    create_output_filename base i dir = dir ++ "/" ++ base ++ "_" ++ pad3 i ++ ".wav" ∧
    (pad3 i).length = max 3 (toString i).length ∧
    (toString i).data <:+ (pad3 i).data ∧
    (3 ≤ (toString i).length → pad3 i = toString i) ∧
    create_output_filename "ava" 7 "./out" = "./out/ava_007.wav" ∧
    create_output_filename "x" 1234 "./out" = "./out/x_1234.wav" := by
  refine ⟨rfl, ?_, ?_, ?_, by decide, by decide⟩
  · by_cases h : (toString i).length < 3
    · simp only [pad3, if_pos h, strLength_append, strLength_mk, List.length_replicate]
      omega
    · simp only [pad3, if_neg h]
      omega
  · by_cases h : (toString i).length < 3
    · simp only [pad3, if_pos h, strData_append]
      exact List.suffix_append _ _
    · simp only [pad3, if_neg h]
      exact List.suffix_rfl
  · intro h
    simp only [pad3, if_neg (by omega : ¬(toString i).length < 3)]

theorem output_namer_path_witness :
    pad3 1234 = toString 1234 :=
  (output_namer_path "x" 1234 "./out").2.2.2.1 (by decide)

lemma filter_map_comm (f : String → String) (p : String → Bool) (l : List String) :
    ((l.filter (fun x => p (f x))).map f) = (l.map f).filter p := by
  induction l with
  | nil => rfl
  | cons a l ih =>
    by_cases h : p (f a)
    · simp [List.filter_cons, h, ih]
    · simp [List.filter_cons, h, ih]

/-- C2: file mode produces exactly the file's lines trimmed of surrounding
whitespace with the blank-after-trim lines dropped, in original relative
order, and the downstream enumeration re-assigns contiguous 1-based
indices over the filtered sequence. -/
theorem text_source_lines (raw : List String) :
    read_text_file_lines raw = (raw.map pyStrip).filter (fun s => !(s == "")) ∧
    (∀ s, s ∈ read_text_file_lines raw → s ≠ "") ∧
    (read_text_file_lines raw).Sublist (raw.map pyStrip) ∧
    (enumerate1 (read_text_file_lines raw)).map Prod.fst =
      List.range' 1 (read_text_file_lines raw).length := by
  refine ⟨filter_map_comm pyStrip (fun s => !(s == "")) raw, ?_, ?_, ?_⟩
  · intro s hs
    simp only [read_text_file_lines, List.mem_map, List.mem_filter] at hs
    obtain ⟨l, ⟨-, hl⟩, rfl⟩ := hs
    simpa using hl
  · simp only [read_text_file_lines]
    rw [filter_map_comm pyStrip (fun s => !(s == "")) raw]
    exact List.filter_sublist _
  · exact List.map_fst_zip _ _ (by simp)

theorem text_source_lines_witness :
    read_text_file_lines ["  Hi \n", "\n", "   \n", "Bye"] = ["Hi", "Bye"] ∧
    "Hi" ≠ "" ∧
    enumerate1 (read_text_file_lines ["  Hi \n", "\n", "   \n", "Bye"]) =
      [(1, "Hi"), (2, "Bye")] :=
  ⟨by decide,
   (text_source_lines ["  Hi \n", "\n", "   \n", "Bye"]).2.1 "Hi" (by decide),
   by decide⟩

/-- C9: prefix auto-derivation applies only when the caller kept the default
`"tts"` token; an alias-key voice makes the (lowercased) key the prefix;
otherwise a voice containing the `en-US-` locale marker is stripped of the
marker and the `Neural`/`Multilingual` suffix tokens and lowercased;
otherwise the default token is kept.  Concrete instances included. -/
theorem prefix_auto_derivation :
    (∀ p v, p ≠ "tts" → derivePfx p v = p) ∧
    (∀ v, (lookupVoice (pyLower v)).isSome = true → derivePfx "tts" v = pyLower v) ∧
    (∀ v, lookupVoice (pyLower v) = none → strIn "en-US-" v = true →
      derivePfx "tts" v =
        pyLower (pyReplace (pyReplace (pyReplace v "en-US-" "") "Neural" "") "Multilingual" "")) ∧
    (∀ v, lookupVoice (pyLower v) = none → strIn "en-US-" v = false →
      derivePfx "tts" v = "tts") ∧
    derivePfx "tts" "en-US-GuyNeural" = "guy" ∧
    derivePfx "tts" "sarah" = "sarah" ∧
    derivePfx "tts" "emma" = "emma" ∧
    derivePfx "tts" "fr-FR-DeniseNeural" = "tts" ∧
    derivePfx "mypfx" "ava" = "mypfx" := by
  refine ⟨?_, ?_, ?_, ?_, by decide, by decide, by decide, by decide, by decide⟩
  · intro p v hp
    simp [derivePfx, beq_iff_eq, hp]
  · intro v hl
    simp [derivePfx, hl]
  · intro v hl hin
    simp [derivePfx, hl, hin]
  · intro v hl hin
    simp [derivePfx, hl, hin]

theorem prefix_auto_derivation_witness :
    derivePfx "custom" "ava" = "custom" ∧
    derivePfx "tts" "AVA" = "ava" ∧
    derivePfx "tts" "en-US-JennyNeural" = "jenny" ∧
    derivePfx "tts" "de-DE-KatjaNeural" = "tts" :=
  ⟨prefix_auto_derivation.1 "custom" "ava" (by decide),
   prefix_auto_derivation.2.1 "AVA" (by decide),
   prefix_auto_derivation.2.2.1 "en-US-JennyNeural" (by decide) (by decide),
   prefix_auto_derivation.2.2.2.1 "de-DE-KatjaNeural" (by decide) (by decide)⟩

/-- Predicate: `needle` occurs as a contiguous substring of `hay`. -/
def substrOf (needle hay : String) : Prop := needle.data <:+: hay.data

lemma substrOf_middle (x needle z : String) : substrOf needle (x ++ needle ++ z) := by
  refine ⟨x.data, z.data, ?_⟩
  simp [substrOf, strData_append]

lemma substrOf_right (x needle : String) : substrOf needle (x ++ needle) := by
  refine ⟨x.data, [], ?_⟩
  simp [substrOf, strData_append]

/-- The message composed by the canceled branch of `synthesize_to_file` /
`synthesize_to_speaker` (lines 78-83): the cancellation message built at
lines 80-82 is raised as `AzureTTSError`, caught by the broad
`except Exception` handler and re-wrapped with the `"Synthesis failed: "`
prefix. -/
def cancelMsg (reason details : String) : String :=
  let em := "Speech synthesis canceled: " ++ reason
  let em := if details == "" then em else em ++ "\nError details: " ++ details
  "Synthesis failed: " ++ em

/-- C5 counterexample: when the provider result's reason is neither
completed nor canceled, `synthesize_to_file` yields neither Success nor a
structured Failure — it returns `False` — so "every synthesis call yields
either Success or a structured Failure" is false at that input. -/
theorem synthesis_outcome_counterexample :
    synthesizeToFile ProviderResult.other = Except.ok false ∧
    isSuccess (synthesizeToFile ProviderResult.other) = false ∧
    isFailureRes (synthesizeToFile ProviderResult.other) = false ∧
    synthesizeToSpeaker ProviderResult.other = Except.ok false :=
  ⟨rfl, rfl, rfl, rfl⟩

/-- C5 amended: every synthesis call on a provider result that is completed,
canceled, or raises an exception yields Success or a structured Failure;
on cancellation the Failure message is composed from the provider
cancellation reason plus (when non-empty) the detailed error string, both
preserved verbatim inside the message; any exception is converted into a
Failure containing that exception's message.  No call ever propagates an
unstructured fault: every provider result maps to a return value or a
structured `AzureTTSError` message (a result whose reason is neither
completed nor canceled yields the bare return value `False`).
`synthesize_to_speaker` behaves identically. -/
theorem synthesis_outcome_amended :
    (∀ reason details,
      synthesizeToFile (ProviderResult.canceled reason details) =
        Except.error (cancelMsg reason details)) ∧
    (∀ reason details, substrOf reason (cancelMsg reason details)) ∧
    (∀ reason details, details ≠ "" → substrOf details (cancelMsg reason details)) ∧
    (∀ m, synthesizeToFile (ProviderResult.raised m) =
        Except.error ("Synthesis failed: " ++ m) ∧
      substrOf m ("Synthesis failed: " ++ m)) ∧
    synthesizeToFile ProviderResult.completed = Except.ok true ∧
    synthesizeToFile ProviderResult.other = Except.ok false ∧
    (∀ r, (∃ b, synthesizeToFile r = Except.ok b) ∨
      (∃ s, synthesizeToFile r = Except.error s)) ∧
    (∀ r, synthesizeToSpeaker r = synthesizeToFile r) := by
  refine ⟨fun reason details => rfl, ?_, ?_, fun m => ⟨rfl, substrOf_right _ _⟩,
    rfl, rfl, ?_, ?_⟩
  · intro reason details
    simp only [cancelMsg]
    by_cases h : (details == "") = true
    · rw [if_pos h]
      exact substrOf_right ("Synthesis failed: " ++ "Speech synthesis canceled: ") reason
    · rw [if_neg h]
      have := substrOf_middle ("Synthesis failed: " ++ "Speech synthesis canceled: ") reason
        ("\nError details: " ++ details)
      simpa [String.append_assoc] using this
  · intro reason details hd
    simp only [cancelMsg]
    rw [if_neg (by simp [hd])]
    have := substrOf_right
      ("Synthesis failed: " ++ ("Speech synthesis canceled: " ++ reason ++ "\nError details: "))
      details
    simpa [String.append_assoc] using this
  · intro r
    cases r with
    | completed => exact Or.inl ⟨true, rfl⟩
    | canceled reason details => exact Or.inr ⟨cancelMsg reason details, rfl⟩
    | other => exact Or.inl ⟨false, rfl⟩
    | raised m => exact Or.inr ⟨"Synthesis failed: " ++ m, rfl⟩
  · intro r
    cases r <;> rfl

theorem synthesis_outcome_amended_witness :
    substrOf "CancellationReason.Error" (cancelMsg "CancellationReason.Error" "auth failed") ∧
    substrOf "auth failed" (cancelMsg "CancellationReason.Error" "auth failed") ∧
    synthesizeToFile (ProviderResult.raised "connection reset") =
      Except.error ("Synthesis failed: " ++ "connection reset") :=
  ⟨synthesis_outcome_amended.2.1 "CancellationReason.Error" "auth failed",
   synthesis_outcome_amended.2.2.1 "CancellationReason.Error" "auth failed" (by decide),
   (synthesis_outcome_amended.2.2.2.1 "connection reset").1⟩

/-- C8 counterexample: with only the working directory present, asking the
Output Namer for directory `"a/b"` raises `FileNotFoundError` instead of
creating the missing parent segment `"a"` — `Path.mkdir(exist_ok=True)` is
called without `parents=True`, so necessary parent segments are NOT
created. -/
theorem output_dir_side_effect_counterexample :
    create_output_filename_fs "tts" 1 "a/b" [""] =
      Except.error ("FileNotFoundError: " ++ "a") ∧
    mkdirExistOk [""] "a/b" = Except.error ("FileNotFoundError: " ++ "a") := by
  constructor <;> rfl

/-- C8 amended: the Output Namer's side effect creates the output directory
when absent and raises no error when it already exists, but does not create
missing parent segments: when the directory's immediate parent exists the
directory is created (or kept) and the path is returned; when both the
directory and its parent are absent the call fails with
`FileNotFoundError`. -/
theorem output_dir_side_effect_amended (base : String) (n : Nat) (dir : String)
    (fs : List String) :
    (dir ∈ fs →
      create_output_filename_fs base n dir fs =
        Except.ok (fs, dir ++ "/" ++ base ++ "_" ++ pad3 n ++ ".wav")) ∧
    (dir ∉ fs → parentOf dir ∈ fs →
      create_output_filename_fs base n dir fs =
        Except.ok (dir :: fs, dir ++ "/" ++ base ++ "_" ++ pad3 n ++ ".wav") ∧
      dir ∈ dir :: fs) ∧
    (dir ∉ fs → parentOf dir ∉ fs →
      create_output_filename_fs base n dir fs =
        Except.error ("FileNotFoundError: " ++ parentOf dir)) := by
  refine ⟨?_, ?_, ?_⟩
  · intro h
    simp [create_output_filename_fs, mkdirExistOk, h]
  · intro h hp
    exact ⟨by simp [create_output_filename_fs, mkdirExistOk, h, hp], List.mem_cons_self dir fs⟩
  · intro h hp
    simp [create_output_filename_fs, mkdirExistOk, h, hp]

theorem output_dir_side_effect_amended_witness :
    create_output_filename_fs "ava" 2 "output" ["", "output"] =
      Except.ok (["", "output"], "output" ++ "/" ++ "ava" ++ "_" ++ pad3 2 ++ ".wav") ∧
    (create_output_filename_fs "ava" 1 "output" [""] =
      Except.ok (["output", ""], "output" ++ "/" ++ "ava" ++ "_" ++ pad3 1 ++ ".wav") ∧
      "output" ∈ ["output", ""]) :=
  ⟨(output_dir_side_effect_amended "ava" 2 "output" ["", "output"]).1 (by decide),
   (output_dir_side_effect_amended "ava" 1 "output" [""]).2.1 (by decide) (by decide)⟩

lemma synthCallCount_vinit (vb : Bool) (v : String) (rest : List Event) :
    synthCallCount ((if vb then [Event.vInit v] else []) ++ rest) = synthCallCount rest := by
  cases vb <;> simp [synthCallCount, isCall, List.filter_append, List.filter_cons]

/-- C6: whenever the `SPEECH_KEY` or `SPEECH_REGION` environment input is
absent or empty, `AzureTTS.__init__` fails with the configuration error for
any requested voice, and in every such run zero synthesis calls are
attempted; in any non-list-voices run that passes argument validation, the
run exits 1 with the configuration error reported. -/
theorem missing_config_fails (env : Env) (a : Args) (fileLines : Option (List String))
    (provider : Nat → ProviderResult)
    (hbad : truthyS env.speechKey = false ∨ truthyS env.speechRegion = false) :
    (∀ v, azureTTSInit env v = Except.error CONFIG_ERR) ∧
    synthCallCount (run env a fileLines provider).2 = 0 ∧
    (argsValid a = true → a.listVoices = false →
      (run env a fileLines provider).1 = 1 ∧
      Event.errorMsg CONFIG_ERR ∈ (run env a fileLines provider).2) := by
  have hinit : ∀ v, azureTTSInit env v = Except.error CONFIG_ERR := by
    intro v
    rcases hbad with h | h <;> simp [azureTTSInit, h]
  refine ⟨hinit, ?_, ?_⟩
  · by_cases hv : argsValid a = true
    · by_cases hlv : a.listVoices = true
      · simp [run, hv, hlv, synthCallCount, isCall]
      · have hlv' : a.listVoices = false := by simpa using hlv
        simp only [run, hv, hlv', hinit (some a.voice)]
        cases hvb : a.verbose <;> simp [synthCallCount, isCall, List.filter_cons]
    · have hv' : argsValid a = false := by simpa using hv
      simp [run, hv', synthCallCount, isCall]
  · intro hv hlv
    simp only [run, hv, hlv, hinit (some a.voice)]
    cases hvb : a.verbose <;> simp

theorem missing_config_fails_witness :
    azureTTSInit ⟨some "", some "westus", none⟩ (some "ava") = Except.error CONFIG_ERR ∧
    synthCallCount (run ⟨some "", some "westus", none⟩
      (mkFileArgs "in.txt" "ava" "tts" "./output") (some ["hello"])
      (fun _ => ProviderResult.completed)).2 = 0 ∧
    (run ⟨some "", some "westus", none⟩ (mkFileArgs "in.txt" "ava" "tts" "./output")
      (some ["hello"]) (fun _ => ProviderResult.completed)).1 = 1 :=
  ⟨(missing_config_fails ⟨some "", some "westus", none⟩
      (mkFileArgs "in.txt" "ava" "tts" "./output") (some ["hello"])
      (fun _ => ProviderResult.completed) (Or.inl (by decide))).1 (some "ava"),
   (missing_config_fails ⟨some "", some "westus", none⟩
      (mkFileArgs "in.txt" "ava" "tts" "./output") (some ["hello"])
      (fun _ => ProviderResult.completed) (Or.inl (by decide))).2.1,
   ((missing_config_fails ⟨some "", some "westus", none⟩
      (mkFileArgs "in.txt" "ava" "tts" "./output") (some ["hello"])
      (fun _ => ProviderResult.completed) (Or.inl (by decide))).2.2 (by decide) rfl).1⟩

/-- Arguments for `--list-voices` together with non-group flags: `-v emma --play --verbose`. -/
def listVoicesPlusFlags : Args :=
  ⟨none, none, true, "emma", none, "./output", "tts", true, true⟩

/-- Arguments for `-t "hello" --list-voices`: two members of the mutually exclusive group. -/
def textPlusListVoices : Args :=
  ⟨some "hello", none, true, "ava", none, "./output", "tts", false, false⟩

/-- Plain single-text invocation `-t "hi"` with all defaults. -/
def singleTextArgs : Args :=
  ⟨some "hi", none, false, "ava", none, "./output", "tts", false, false⟩

/-- C7 counterexample: `--list-voices` combined with other flags
(`-v emma --play --verbose` here) passes argument validation and the run
lists the voices and exits 0 — it is NOT rejected as a configuration
error.  Only `-t`/`-f` are in the mutually exclusive group with
`--list-voices`. -/
theorem list_voices_exclusion_counterexample :
    argsValid listVoicesPlusFlags = true ∧
    listVoicesPlusFlags.verbose = true ∧ listVoicesPlusFlags.play = true ∧
    listVoicesPlusFlags.voice = "emma" ∧
    run ⟨none, none, none⟩ listVoicesPlusFlags none (fun _ => ProviderResult.completed) =
      (0, [Event.listedVoices]) :=
  ⟨rfl, rfl, rfl, rfl, rfl⟩

/-- C7 amended: combining `--list-voices` with one of the other PRIMARY
input flags (`--text` or `--file`) is rejected by the argparse
mutual-exclusion validation before any voice or session resolution occurs
(exit code 2, the only event is the usage error, zero synthesis calls);
flags outside the group (voice, output, prefix, play, verbose) combined
with `--list-voices` are accepted and the run lists the voices and
exits 0. -/
theorem list_voices_exclusion_amended (env : Env) (a : Args)
    (fileLines : Option (List String)) (provider : Nat → ProviderResult)
    (hlv : a.listVoices = true)
    (hother : a.text.isSome = true ∨ a.file.isSome = true) :
    run env a fileLines provider = (2, [Event.usageError]) ∧
    synthCallCount (run env a fileLines provider).2 = 0 := by
  have hinvalid : argsValid a = false := by
    rcases a with ⟨t, f, lv, v, o, od, px, pl, vb⟩
    simp only at hlv hother ⊢
    subst hlv
    rcases hother with h | h
    · cases t with
      | none => simp at h
      | some tv => cases f <;> simp [argsValid, b2n]
    · cases f with
      | none => simp at h
      | some fv => cases t <;> simp [argsValid, b2n]
  constructor
  · simp [run, hinvalid]
  · simp [run, hinvalid, synthCallCount, isCall]

theorem list_voices_exclusion_amended_witness :
    run ⟨some "k", some "r", none⟩ textPlusListVoices none
      (fun _ => ProviderResult.completed) = (2, [Event.usageError]) :=
  (list_voices_exclusion_amended ⟨some "k", some "r", none⟩ textPlusListVoices none
    (fun _ => ProviderResult.completed) rfl (Or.inl rfl)).1

/-- C10 (implicit): when the provider result's reason is neither completed
nor canceled, both synthesis methods return `False` instead of raising, and
the orchestrator ignores the return value: a file-mode run and a
single-text run whose only provider result is such a reason still emit the
per-item success messages and exit 0 — exit code 0 does not imply a
provider-reported Success for every synthesized unit. -/
theorem false_return_ignored :
    synthesizeToFile ProviderResult.other = Except.ok false ∧
    synthesizeToSpeaker ProviderResult.other = Except.ok false ∧
    isSuccess (synthesizeToFile ProviderResult.other) = false ∧
    run ⟨some "key", some "region", none⟩ (mkFileArgs "in.txt" "ava" "tts" "./output")
      (some ["hello"]) (fun _ => ProviderResult.other) =
      (0, [Event.processing 1 "in.txt",
           Event.callSynthFile "hello" "./output/ava_001.wav",
           Event.savedLine 1 "./output/ava_001.wav",
           Event.allSaved 1 "./output"]) ∧
    run ⟨some "key", some "region", none⟩ singleTextArgs none
      (fun _ => ProviderResult.other) =
      (0, [Event.callSynthFile "hi" "output.wav", Event.savedOk "output.wav"]) :=
  ⟨rfl, rfl, rfl, rfl, rfl⟩

lemma synthTexts_append (a b : List Event) :
    synthTexts (a ++ b) = synthTexts a ++ synthTexts b :=
  List.filterMap_append _ _ _

lemma savedIdx_append (a b : List Event) :
    savedIdx (a ++ b) = savedIdx a ++ savedIdx b :=
  List.filterMap_append _ _ _

lemma synthTexts_vevs (vb : Bool) (i : Nat) (path : String) :
    synthTexts (if vb then [Event.vSynthLine i path] else []) = [] := by
  cases vb <;> rfl

lemma savedIdx_vevs (vb : Bool) (i : Nat) (path : String) :
    savedIdx (if vb then [Event.vSynthLine i path] else []) = [] := by
  cases vb <;> rfl

/-- Behavior of the save-each-line loop when the first failing call is the
`k`-th: exactly items `s..k` are submitted, per-line success is reported for
`s..k-1`, and the loop stops with the `k`-th call's error message. -/
lemma fileLoop_first_fail (p dir : String) (vb : Bool) (provider : Nat → ProviderResult) :
    ∀ (lines : List String) (s k : Nat), s ≤ k → k < s + lines.length →
      isErr (synthesizeToFile (provider k)) = true →
      (∀ j, s ≤ j → j < k → isErr (synthesizeToFile (provider j)) = false) →
      ∃ evs m, fileLoop p dir vb provider lines s = (evs, some m) ∧
        synthesizeToFile (provider k) = Except.error m ∧
        synthTexts evs = lines.take (k + 1 - s) ∧
        savedIdx evs = List.range' s (k - s) := by
  intro lines
  induction lines with
  | nil =>
    intro s k hsk hks _ _
    simp at hks
    omega
  | cons line rest ih =>
    intro s k hsk hklt hfail hok
    by_cases hks : k = s
    · subst hks
      obtain ⟨m, hm⟩ : ∃ m, synthesizeToFile (provider k) = .error m := by
        cases h : synthesizeToFile (provider k) with
        | ok b => rw [h] at hfail; simp [isErr] at hfail
        | error m => exact ⟨m, rfl⟩
      refine ⟨(if vb then [Event.vSynthLine k (create_output_filename p k dir)] else []) ++
        [Event.callSynthFile line (create_output_filename p k dir)], m, ?_, hm, ?_, ?_⟩
      · simp only [fileLoop]
        rw [hm]
      · rw [synthTexts_append, synthTexts_vevs]
        simp [synthTexts]
      · rw [savedIdx_append, savedIdx_vevs]
        simp [savedIdx]
    · have hsk' : s < k := lt_of_le_of_ne hsk (fun h => hks h.symm)
      obtain ⟨b, hb⟩ : ∃ b, synthesizeToFile (provider s) = .ok b := by
        have hje := hok s le_rfl hsk'
        cases h : synthesizeToFile (provider s) with
        | ok b => exact ⟨b, rfl⟩
        | error m => rw [h] at hje; simp [isErr] at hje
      obtain ⟨evs, m, hloop, hm, htex, hsav⟩ :=
        ih (s + 1) k hsk' (by simp only [List.length_cons] at hklt; omega) hfail
          (fun j h1 h2 => hok j (by omega) h2)
      refine ⟨(if vb then [Event.vSynthLine s (create_output_filename p s dir)] else []) ++
        [Event.callSynthFile line (create_output_filename p s dir),
         Event.savedLine s (create_output_filename p s dir)] ++ evs, m, ?_, hm, ?_, ?_⟩
      · simp only [fileLoop]
        rw [hb, hloop]
      · rw [synthTexts_append, synthTexts_append, synthTexts_vevs]
        rw [htex, show k + 1 - (s + 1) = k - s from by omega]
        rw [show k + 1 - s = (k - s) + 1 from by omega, List.take_succ_cons]
        simp [synthTexts]
      · rw [savedIdx_append, savedIdx_append, savedIdx_vevs]
        rw [hsav, show k - s = (k - (s + 1)) + 1 from by omega, List.range'_succ]
        simp [savedIdx, show s + 1 = s + 1 from rfl]

/-- C4: in file mode, items are synthesized strictly one at a time in input
order, and a failure on item `k` aborts the rest: exactly the first `k`
items are submitted (none after the failing one), the loop terminates, the
run exits 1 reporting the failing call's error, and the failing index is
determined by the output — it is the number of per-line success messages
plus one. -/
theorem failure_aborts_remaining (key region f voice pfxArg dir : String)
    (envVoice : Option String) (raw : List String) (provider : Nat → ProviderResult)
    (k : Nat) (hkey : key ≠ "") (hregion : region ≠ "") (hf : f ≠ "")
    (hk1 : 1 ≤ k) (hk2 : k ≤ (read_text_file_lines raw).length)
    (hfail : isErr (synthesizeToFile (provider k)) = true)
    (hok : ∀ j, 1 ≤ j → j < k → isErr (synthesizeToFile (provider j)) = false) :
    ∃ evs m,
      run ⟨some key, some region, envVoice⟩ (mkFileArgs f voice pfxArg dir) (some raw) provider
        = (1, Event.processing (read_text_file_lines raw).length f :: (evs ++ [Event.errorMsg m])) ∧
      synthesizeToFile (provider k) = Except.error m ∧
      synthTexts evs = (read_text_file_lines raw).take k ∧
      savedIdx evs = List.range' 1 (k - 1) ∧
      k = (savedIdx evs).length + 1 := by
  have hlen : 1 ≤ (read_text_file_lines raw).length := le_trans hk1 hk2
  have hne : (read_text_file_lines raw).isEmpty = false := by
    cases hcase : read_text_file_lines raw with
    | nil => rw [hcase] at hlen; simp at hlen
    | cons a l => rfl
  obtain ⟨evs, m, hloop, hm, htex, hsav⟩ :=
    fileLoop_first_fail (derivePfx pfxArg voice) dir false provider
      (read_text_file_lines raw) 1 k hk1 (by omega) hfail hok
  refine ⟨evs, m, ?_, hm, ?_, hsav, ?_⟩
  · have h5 : azureTTSInit ⟨some key, some region, envVoice⟩ (some voice) =
        Except.ok (resolveVoice (some voice) envVoice) := by
      simp [azureTTSInit, truthyS, hkey, hregion]
    simp [run, mkFileArgs, argsValid, b2n, h5, truthyS, hf, hne, hloop]
  · rw [htex, show k + 1 - 1 = k from by omega]
  · rw [hsav, List.length_range']
    omega

/-- Provider oracle whose second call raises and all others complete. -/
def failAtTwo : Nat → ProviderResult :=
  fun j => if j == 2 then ProviderResult.raised "boom" else ProviderResult.completed

theorem failure_aborts_remaining_witness :
    ∃ evs m,
      run ⟨some "k", some "r", none⟩ (mkFileArgs "in.txt" "ava" "tts" "./out")
        (some ["a", "b", "c"]) failAtTwo
        = (1, Event.processing (read_text_file_lines ["a", "b", "c"]).length "in.txt" ::
            (evs ++ [Event.errorMsg m])) ∧
      synthesizeToFile (failAtTwo 2) = Except.error m ∧
      synthTexts evs = (read_text_file_lines ["a", "b", "c"]).take 2 ∧
      savedIdx evs = List.range' 1 (2 - 1) ∧
      2 = (savedIdx evs).length + 1 :=
  failure_aborts_remaining "k" "r" "in.txt" "ava" "tts" "./out" none ["a", "b", "c"]
    failAtTwo 2 (by decide) (by decide) (by decide) (by decide) (by decide) (by decide)
    (by
      intro j h1 h2
      have hj : j = 1 := by omega
      subst hj
      decide)
